import Mathlib

/-!
Verification of netifd's `vlandev.c` (VLAN sub-interface lifecycle,
QoS-mapping parsing, and configuration-reload classification).

The definitions below are a shallow embedding of `src/vlandev.c`.
External collaborators (libc `sscanf`, `device_claim`/`device_release`,
`system_vlandev_add`/`system_vlandev_del`, `uci_blob_diff`, blobmsg
parsing) are modelled at their interface boundary, as the spec's Section 6
describes them.
-/

/-! ## Character classes used by the `sscanf` model -/

/-- ASCII decimal digit, as `sscanf`'s `%u` conversion recognises it. -/
def isDigitChar (c : Char) : Bool := 48 ≤ c.toNat && c.toNat ≤ 57

/-- `isspace` whitespace, skipped by `sscanf` before a `%u` conversion:
space, tab, newline, vertical tab, form feed, carriage return. -/
def isSpaceChar (c : Char) : Bool :=
  c.toNat = 32 || c.toNat = 9 || c.toNat = 10 || c.toNat = 11 ||
  c.toNat = 12 || c.toNat = 13

/-- Drop leading whitespace characters. -/
def skipWs : List Char → List Char
  | [] => []
  | c :: cs => if isSpaceChar c then skipWs cs else c :: cs

/-- Split off the longest leading run of decimal digits. -/
def takeDigits : List Char → List Char × List Char
  | [] => ([], [])
  | c :: cs =>
    if isDigitChar c then
      let p := takeDigits cs
      (c :: p.1, p.2)
    else
      ([], c :: cs)

/-- Numeric value of a digit run, most significant digit first. -/
def digitsVal (ds : List Char) : Nat :=
  ds.foldl (fun a c => a * 10 + (c.toNat - 48)) 0

/-- Body of a `%u` conversion after whitespace: an optional single `+`
or `-` sign, then a nonempty run of decimal digits — the subject
sequence of `strtoul` with base 10, which the C standard prescribes for
`%u`. A `-` wraps the value in `uint32_t` arithmetic (`2 ^ 32 - n`), a
`+` is neutral; with no digit after the optional sign the conversion
fails. Returns the value and the unconsumed rest. -/
def scanSigned : List Char → Option (Nat × List Char)
  | [] => none
  | c :: cs2 =>
    if c = '-' then
      match takeDigits cs2 with
      | ([], _) => none
      | (ds, rest) => some ((2 ^ 32 - digitsVal ds % 2 ^ 32) % 2 ^ 32, rest)
    else if c = '+' then
      match takeDigits cs2 with
      | ([], _) => none
      | (ds, rest) => some (digitsVal ds % 2 ^ 32, rest)
    else
      match takeDigits (c :: cs2) with
      | ([], _) => none
      | (ds, rest) => some (digitsVal ds % 2 ^ 32, rest)

/-- One `%" PRIu32 "` conversion of `sscanf`: skip whitespace, then read
an optionally signed run of decimal digits; the value is reduced modulo
`2 ^ 32` (`uint32_t` destination). Returns the value and the unconsumed
rest, or `none` when no digit is found (conversion failure). -/
def scanU32 (cs : List Char) : Option (Nat × List Char) :=
  scanSigned (skipWs cs)

/-- Model of `sscanf(s, "%" PRIu32 ":%" PRIu32, &from, &to)` as used at
`vlandev.c:182`: the call yields 2 (both values stored) exactly when a
`%u` conversion succeeds, the next input character is the literal `:`,
and a second `%u` conversion succeeds; any input left after the second
number is ignored. -/
def sscanf_u32_pair (s : String) : Option (Nat × Nat) :=
  match scanU32 s.data with
  | none => none
  | some (a, rest) =>
    match rest with
    | [] => none
    | c :: rest2 =>
      if c = ':' then
        match scanU32 rest2 with
        | none => none
        | some (b, _) => some (a, b)
      else none

/-- A string that is literally `<unsigned-int>:<unsigned-int>`: a nonempty
digit run, a colon, a nonempty digit run, and nothing else. -/
def isFromTo (s : String) : Bool :=
  match takeDigits s.data with
  | ([], _) => false
  | (_, rest) =>
    match rest with
    | [] => false
    | c :: rest2 =>
      c = ':' &&
        (match takeDigits rest2 with
         | ([], _) => false
         | (_, rest3) => rest3.isEmpty)

/-! ## Blob attributes (list items of a QoS mapping list) -/

/-- One element of a blobmsg list as `vlandev_qos_mappings_list_apply`
inspects it: either a string attribute (`blobmsg_type == STRING`)
carrying its payload and the verdict of `blobmsg_check_attr` on its raw
encoding, or an attribute of any other blobmsg type. -/
inductive BlobAttr where
  | str (s : String) (checkOk : Bool)
  | nonstr
deriving DecidableEq

/-- `blobmsg_type(cur) == BLOBMSG_TYPE_STRING` test at `vlandev.c:172`. -/
def blobAttrIsString : BlobAttr → Bool
  | .str _ _ => true
  | .nonstr => false

/-- `blobmsg_check_attr(cur, false)` at `vlandev.c:177`; for a string
attribute the verdict is carried by the model, for other types the
branch is unreachable (the type check at line 172 fires first). -/
def blobmsg_check_attr : BlobAttr → Bool
  | .str _ ok => ok
  | .nonstr => true

/-- The decoded `(from, to)` pair of a string item (`(0, 0)` placeholder
when the scan fails, in which case the parser never stores it). -/
def entryPair : BlobAttr → Nat × Nat
  | .str s _ => (sscanf_u32_pair s).getD (0, 0)
  | .nonstr => (0, 0)

/-- An item the parser accepts: a string attribute whose raw encoding
passes `blobmsg_check_attr` and whose payload the `sscanf` scan decodes. -/
def goodScanEntry : BlobAttr → Bool
  | .str s ok => ok && (sscanf_u32_pair s).isSome
  | .nonstr => false

/-- An item the `sscanf` call at `vlandev.c:182` rejects: not a string,
or a string whose payload the `%u:%u` scan fails on (the scan accepts
an optional sign and ignores trailing input, so this is weaker than not
being literally `<unsigned-int>:<unsigned-int>`). -/
def badPattern : BlobAttr → Bool
  | .str s _ => (sscanf_u32_pair s).isNone
  | .nonstr => true

/-! ## The QoS mapping parser, `vlandev_qos_mappings_list_apply` -/

/-- Loop body of `vlandev_qos_mappings_list_apply` (`vlandev.c:166`):
`i` is the loop counter, `acc` the cells of `qos_mapping` written so
far. Every failure path (`i == len`, non-string item, check failure,
scan failure) returns count 0; finishing the list returns the counter. -/
def qosApply (len : Nat) : List BlobAttr → Nat → List (Nat × Nat) →
    Nat × List (Nat × Nat)
  | [], i, acc => (i, acc)
  | cur :: rest, i, acc =>
    if i = len then (0, acc)
    else
      match cur with
      | .nonstr => (0, acc)
      | .str s ok =>
        if !ok then (0, acc)
        else
          match sscanf_u32_pair s with
          | none => (0, acc)
          | some p => qosApply len rest (i + 1) (acc ++ [p])

/-- `vlandev_qos_mappings_list_apply(qos_mapping, len, list)`
(`vlandev.c:160`): returns the count of decoded pairs together with the
destination cells written (the caller reads only the first `count`). -/
def vlandev_qos_mappings_list_apply (len : Nat) (list : List BlobAttr) :
    Nat × List (Nat × Nat) :=
  qosApply len list 0 []

/-- An item of the shape claim C4 quantifies over: a well-encoded string
attribute whose payload is literally `<unsigned-int>:<unsigned-int>`. -/
def goodFormEntry : BlobAttr → Bool
  | .str s ok => ok && isFromTo s
  | .nonstr => false

/-! ## Lifecycle: `vlandev_set_up` / `vlandev_set_down` -/

/-- The calls `vlandev_set_up`/`vlandev_set_down` make into their external
collaborators, in program order: `device_claim`/`device_release` on the
parent binding, `system_vlandev_add`/`system_vlandev_del` on the derived
link, and the saved generic `set_state` callback. -/
inductive ExtCall where
  | device_claim
  | device_release
  | system_vlandev_add
  | system_vlandev_del
  | set_state (up : Bool)
deriving DecidableEq

/-- Results the external collaborators return during one activation
attempt: `device_claim` and `system_vlandev_add` fail by returning a
negative value, the generic `set_state` fails by returning nonzero. -/
structure SetUpEnv where
  device_claim_ret : Int
  system_vlandev_add_ret : Int
  set_state_ret : Int

/-- `vlandev_set_up` (`vlandev.c:86`): claim the parent; on failure return
the error with no further call. Then create the derived link; on failure
release the claim and return the error. Then bring the interface up; on
nonzero result destroy the link, release the claim, and return the
result. The value is the returned code together with the external calls
made, in order. -/
def vlandev_set_up (env : SetUpEnv) : Int × List ExtCall :=
  if env.device_claim_ret < 0 then
    (env.device_claim_ret, [.device_claim])
  else if env.system_vlandev_add_ret < 0 then
    (env.system_vlandev_add_ret,
      [.device_claim, .system_vlandev_add, .device_release])
  else if env.set_state_ret ≠ 0 then
    (env.set_state_ret,
      [.device_claim, .system_vlandev_add, .set_state true,
       .system_vlandev_del, .device_release])
  else
    (0, [.device_claim, .system_vlandev_add, .set_state true])

/-- `vlandev_set_down` (`vlandev.c:76`): bring the interface down
(discarding the result, which is the argument here), destroy the derived
link, release the parent claim, return 0. -/
def vlandev_set_down (set_state_down_ret : Int) : Int × List ExtCall :=
  let _ := set_state_down_ret
  (0, [.set_state false, .system_vlandev_del, .device_release])

/-- Resources a `vlandev_device` can hold: the exclusive claim on the
parent and the derived kernel link. -/
structure Resources where
  claimed : Bool
  linkPresent : Bool
deriving DecidableEq

/-- Modelled from the spec: contracts of the external collaborators
(spec Section 6) — a successful `device_claim` acquires the exclusive
claim, `device_release` undoes it; a successful `system_vlandev_add`
creates the derived link, `system_vlandev_del` removes it; `set_state`
acquires nothing. -/
def callEffect (env : SetUpEnv) (r : Resources) : ExtCall → Resources
  | .device_claim =>
    if env.device_claim_ret < 0 then r else { r with claimed := true }
  | .device_release => { r with claimed := false }
  | .system_vlandev_add =>
    if env.system_vlandev_add_ret < 0 then r else { r with linkPresent := true }
  | .system_vlandev_del => { r with linkPresent := false }
  | .set_state _ => r

/-- Resources held after a sequence of external calls. -/
def runCalls (env : SetUpEnv) (r0 : Resources) (calls : List ExtCall) :
    Resources :=
  calls.foldl (callEffect env) r0

/-! ## Configuration: `vlandev_apply_settings` and `vlandev_reload` -/

/-- `enum vlan_proto`: the protocol variant stored in `vlandev_config`. -/
inductive VlanProto where
  | VLAN_PROTO_8021Q
  | VLAN_PROTO_8021AD
deriving DecidableEq

/-- `struct vlandev_config`: protocol, tag, and the two bounded mapping
tables, each a list of written cells plus the count the caller reads.
The array capacity (`ARRAY_SIZE` in the source, from the external struct
definition) is a parameter of the operations below. -/
structure VlanConfig where
  proto : VlanProto
  vid : Nat
  ingress_qos_mappings : List (Nat × Nat)
  ingress_qos_mappings_len : Nat
  egress_qos_mappings : List (Nat × Nat)
  egress_qos_mappings_len : Nat
deriving DecidableEq

/-- The VLAN-schema parse result `tb_mv` of `blobmsg_parse` with
`vlandev_attrs`: each of the four attributes is present or absent; a
present `vid` carries its `u32` payload, a present mapping list carries
its items. -/
structure VlanTb where
  ifname : Option String
  vid : Option Nat
  ingress_qos_mapping : Option (List BlobAttr)
  egress_qos_mapping : Option (List BlobAttr)
deriving DecidableEq

/-- `blobmsg_get_u32`: the attribute payload read as a 32-bit value. -/
def blobmsg_get_u32 (v : Nat) : Nat := v % 2 ^ 32

/-- The C cast `(uint16_t)` applied at `vlandev.c:209`. -/
def u16_cast (v : Nat) : Nat := v % 2 ^ 16

/-- `vlandev_apply_settings` (`vlandev.c:196`): protocol fixed by the
creating variant, `vid` defaulted to 1 then overwritten by the truncated
`vid` attribute when present, mapping tables filled by the parser when
their list attribute is present. -/
def vlandev_apply_settings (cap : Nat) (is8021q : Bool) (tb : VlanTb) :
    VlanConfig :=
  let cfg : VlanConfig :=
    { proto := if is8021q then .VLAN_PROTO_8021Q else .VLAN_PROTO_8021AD
      vid := 1
      ingress_qos_mappings := []
      ingress_qos_mappings_len := 0
      egress_qos_mappings := []
      egress_qos_mappings_len := 0 }
  let cfg := match tb.vid with
    | some v => { cfg with vid := u16_cast (blobmsg_get_u32 v) }
    | none => cfg
  let cfg := match tb.ingress_qos_mapping with
    | some l =>
      let r := vlandev_qos_mappings_list_apply cap l
      { cfg with ingress_qos_mappings := r.2, ingress_qos_mappings_len := r.1 }
    | none => cfg
  match tb.egress_qos_mapping with
  | some l =>
    let r := vlandev_qos_mappings_list_apply cap l
    { cfg with egress_qos_mappings := r.2, egress_qos_mappings_len := r.1 }
  | none => cfg

/-- A mapping list the parser accepts in full: it fits the capacity and
every item is an accepted string. Failure of this test is what the
claims call a failed parse. -/
def qosParseOk (cap : Nat) (l : List BlobAttr) : Bool :=
  decide (l.length ≤ cap) && l.all goodScanEntry

/-- Opaque stand-in for the generic-schema parse result `tb_dev`; the
generic attribute schema (`device_attr_list`) lives in `device.c`,
outside this module. -/
structure DevTb where
  val : Nat
deriving DecidableEq

/-- A raw configuration blob as this module consumes it: `blobmsg_parse`
is deterministic, so the blob is represented by its two schema-parse
results. `blob_memdup` is the identity under value semantics. -/
structure RawConfig where
  dev : DevTb
  mv : VlanTb
deriving DecidableEq

/-- The two classifications `vlandev_reload` can return (from the
external `enum dev_change_type`): apply in place, or restart. -/
inductive DevChangeType where
  | DEV_CONFIG_APPLIED
  | DEV_CONFIG_RESTART
deriving DecidableEq

/-- The external structural-diff utility `uci_blob_diff`, one comparison
function per schema; it returns nonzero (here `true`) when the decoded
attribute sets differ. -/
structure DiffOracle where
  diff_dev : DevTb → DevTb → Bool
  diff_mv : VlanTb → VlanTb → Bool

/-- The fields of `struct vlandev_device` that `vlandev_reload` touches:
the creating variant, the persisted raw configuration, the recorded
parent name, the configuration snapshot, the generic settings handed to
`device_init_settings`, and a count of `vlandev_config_init` calls
(parent rebinding, an external effect). -/
structure VlandevDev where
  is8021q : Bool
  config_data : Option RawConfig
  ifname : Option String
  config : VlanConfig
  dev_settings : Option DevTb
  config_init_calls : Nat

/-- `vlandev_reload` (`vlandev.c:226`): parse the new blob against both
schemas, initialise generic settings, apply the VLAN settings, record
the parent name; when a persisted configuration exists, diff both
schema decodes (either difference forces `DEV_CONFIG_RESTART`) and
re-run parent binding; finally replace the persisted configuration with
the new blob (the previous copy is freed — value semantics here). -/
def vlandev_reload (oracle : DiffOracle) (cap : Nat) (st : VlandevDev)
    (attr : RawConfig) : DevChangeType × VlandevDev :=
  let ret := DevChangeType.DEV_CONFIG_APPLIED
  let tb_dev := attr.dev
  let tb_mv := attr.mv
  let st1 := { st with
    dev_settings := some tb_dev
    config := vlandev_apply_settings cap st.is8021q tb_mv
    ifname := tb_mv.ifname }
  match st1.config_data with
  | some old =>
    let ret := if oracle.diff_dev tb_dev old.dev then
      DevChangeType.DEV_CONFIG_RESTART else ret
    let ret := if oracle.diff_mv tb_mv old.mv then
      DevChangeType.DEV_CONFIG_RESTART else ret
    let st2 := { st1 with config_init_calls := st1.config_init_calls + 1 }
    (ret, { st2 with config_data := some attr })
  | none => (ret, { st1 with config_data := some attr })

/-- Sample empty VLAN-schema parse result, used in concrete instances. -/
def emptyVlanTb : VlanTb := ⟨none, none, none, none⟩

/-- Sample configuration snapshot, used in concrete instances. -/
def sampleCfg : VlanConfig := ⟨.VLAN_PROTO_8021Q, 1, [], 0, [], 0⟩

/-! ## Parser lemmas -/

theorem digit_not_space (c : Char) (h : isDigitChar c = true) :
    isSpaceChar c = false := by
  simp only [isDigitChar, Bool.and_eq_true, decide_eq_true_eq] at h
  simp only [isSpaceChar, Bool.or_eq_false_iff, decide_eq_false_iff_not]
  omega

theorem digit_ne_dash (c : Char) (h : isDigitChar c = true) : c ≠ '-' := by
  rintro rfl
  exact absurd h (by decide)

theorem digit_ne_plus (c : Char) (h : isDigitChar c = true) : c ≠ '+' := by
  rintro rfl
  exact absurd h (by decide)

theorem takeDigits_head_digit (cs ds rest : List Char)
    (h : takeDigits cs = (ds, rest)) (hne : ds ≠ []) :
    ∃ d cs2, cs = d :: cs2 ∧ isDigitChar d = true := by
  cases cs with
  | nil =>
    rw [takeDigits] at h
    injection h with h1 h2
    exact absurd h1.symm hne
  | cons c cs2 =>
    by_cases hd : isDigitChar c = true
    · exact ⟨c, cs2, rfl, hd⟩
    · rw [takeDigits, if_neg hd] at h
      injection h with h1 h2
      exact absurd h1.symm hne

theorem scanU32_of_takeDigits (cs ds rest : List Char)
    (h : takeDigits cs = (ds, rest)) (hne : ds ≠ []) :
    scanU32 cs = some (digitsVal ds % 2 ^ 32, rest) := by
  obtain ⟨d, cs2, hcs, hd⟩ := takeDigits_head_digit cs ds rest h hne
  subst hcs
  have hws : skipWs (d :: cs2) = d :: cs2 := by
    rw [skipWs, if_neg (by simp [digit_not_space d hd])]
  unfold scanU32
  rw [hws, scanSigned, if_neg (digit_ne_dash d hd),
    if_neg (digit_ne_plus d hd), h]
  cases ds with
  | nil => exact absurd rfl hne
  | cons x xs => rfl

theorem sscanf_of_isFromTo (s : String) (h : isFromTo s = true) :
    (sscanf_u32_pair s).isSome = true := by
  unfold isFromTo at h
  rcases h1 : takeDigits s.data with ⟨ds, rest⟩
  rw [h1] at h
  cases ds with
  | nil => simp at h
  | cons d1 ds1 =>
    cases rest with
    | nil => simp at h
    | cons r rest2 =>
      simp only [Bool.and_eq_true, decide_eq_true_eq] at h
      obtain ⟨hr, h⟩ := h
      subst hr
      rcases h2 : takeDigits rest2 with ⟨ds2, rest3⟩
      rw [h2] at h
      cases ds2 with
      | nil => simp at h
      | cons d2 ds3 =>
        simp only [List.isEmpty_iff] at h
        subst h
        simp [sscanf_u32_pair,
          scanU32_of_takeDigits s.data (d1 :: ds1) (':' :: rest2) h1
            (by simp),
          scanU32_of_takeDigits rest2 (d2 :: ds3) [] h2 (by simp)]

theorem goodScanEntry_sscanf (a : BlobAttr) (h : goodScanEntry a = true) :
    ∃ s ok p, a = .str s ok ∧ ok = true ∧ sscanf_u32_pair s = some p ∧
      entryPair a = p := by
  cases a with
  | nonstr => simp [goodScanEntry] at h
  | str s ok =>
    simp only [goodScanEntry, Bool.and_eq_true, Option.isSome_iff_exists] at h
    obtain ⟨hok, p, hp⟩ := h
    exact ⟨s, ok, p, rfl, hok, hp, by simp [entryPair, hp]⟩

/-- On a list whose items all scan, and that fits the capacity, the loop
decodes every item in order. -/
theorem qosApply_all_good (len : Nat) :
    ∀ (l : List BlobAttr) (i : Nat) (acc : List (Nat × Nat)),
      i + l.length ≤ len → (∀ a ∈ l, goodScanEntry a = true) →
      qosApply len l i acc = (i + l.length, acc ++ l.map entryPair) := by
  intro l
  induction l with
  | nil => intro i acc _ _; simp [qosApply]
  | cons cur rest ih =>
    intro i acc hlen hgood
    have hi : i ≠ len := by simp at hlen; omega
    obtain ⟨s, ok, p, ha, hok, hp, hep⟩ :=
      goodScanEntry_sscanf cur (hgood cur (by simp))
    subst ha; subst hok
    rw [qosApply, if_neg hi]
    simp only [Bool.not_true, Bool.false_eq_true, if_false, hp]
    rw [ih (i + 1) (acc ++ [p]) (by simp at hlen ⊢; omega)
      (fun a hm => hgood a (by simp [hm]))]
    simp only [List.map_cons, List.length_cons, Prod.mk.injEq]
    exact ⟨by omega, by simp [entryPair, hp]⟩

/-- Any item the parser rejects forces the whole result to count 0,
wherever it sits in the list. -/
theorem qosApply_has_bad (len : Nat) :
    ∀ (l : List BlobAttr) (i : Nat) (acc : List (Nat × Nat)),
      (∃ a ∈ l, goodScanEntry a = false) →
      (qosApply len l i acc).1 = 0 := by
  intro l
  induction l with
  | nil => intro i acc h; simp at h
  | cons cur rest ih =>
    intro i acc h
    cases cur with
    | nonstr =>
      rw [qosApply]
      by_cases hi : i = len
      · simp [hi]
      · simp [hi]
    | str s ok =>
      rw [qosApply]
      by_cases hi : i = len
      · simp [hi]
      · rw [if_neg hi]
        cases ok with
        | false => rfl
        | true =>
          simp only [Bool.not_true, Bool.false_eq_true, if_false]
          cases hp : sscanf_u32_pair s with
          | none => rfl
          | some p =>
            apply ih
            obtain ⟨a, hm, hbad⟩ := h
            rcases List.mem_cons.mp hm with rfl | hm2
            · simp [goodScanEntry, hp] at hbad
            · exact ⟨a, hm2, hbad⟩

/-- A list longer than the capacity forces count 0: the loop aborts at
`i == len` if no item failed before that. -/
theorem qosApply_overflow (len : Nat) :
    ∀ (l : List BlobAttr) (i : Nat) (acc : List (Nat × Nat)),
      i ≤ len → len < i + l.length →
      (qosApply len l i acc).1 = 0 := by
  intro l
  induction l with
  | nil => intro i acc h1 h2; simp at h2; omega
  | cons cur rest ih =>
    intro i acc h1 h2
    cases cur with
    | nonstr =>
      rw [qosApply]
      by_cases hi : i = len
      · simp [hi]
      · simp [hi]
    | str s ok =>
      rw [qosApply]
      by_cases hi : i = len
      · simp [hi]
      · rw [if_neg hi]
        cases ok with
        | false => rfl
        | true =>
          simp only [Bool.not_true, Bool.false_eq_true, if_false]
          cases hp : sscanf_u32_pair s with
          | none => rfl
          | some p =>
            have hi2 : i + 1 ≤ len := by omega
            exact ih (i + 1) (acc ++ [p]) hi2 (by simp at h2 ⊢; omega)

/-- C3 counterexample: the claim as stated fails on the program —
`"-1:2"` is a string item that does not match the pattern
`<unsigned-int>:<unsigned-int>`, yet the parser decodes it and yields
count 1, not 0, because the `%u` conversion of `sscanf` accepts an
optional sign (wrapping `-1` to `2 ^ 32 - 1`). -/
theorem qos_mappings_malformed_counterexample :
    blobAttrIsString (BlobAttr.str "-1:2" true) = true ∧
    isFromTo "-1:2" = false ∧
    (vlandev_qos_mappings_list_apply 8 [BlobAttr.str "-1:2" true]).1 = 1 ∧
    (vlandev_qos_mappings_list_apply 8 [BlobAttr.str "-1:2" true]).1 ≠ 0 := by
  decide

/-- C3 (amended): a mapping list containing any item that is not a
string, or whose payload the `sscanf` `%u:%u` scan rejects — the code's
acceptance test, which also admits sign-prefixed numbers and trailing
input — yields count 0, never a partial count, so the table the caller
reads (the first `count` cells) is empty. -/
theorem qos_mappings_malformed_yields_zero (len : Nat) (list : List BlobAttr)
    (h : ∃ a ∈ list, badPattern a = true) :
    (vlandev_qos_mappings_list_apply len list).1 = 0 ∧
    (vlandev_qos_mappings_list_apply len list).2.take
      (vlandev_qos_mappings_list_apply len list).1 = [] := by
  have hz : (vlandev_qos_mappings_list_apply len list).1 = 0 := by
    apply qosApply_has_bad
    obtain ⟨a, hm, hbad⟩ := h
    refine ⟨a, hm, ?_⟩
    cases a with
    | nonstr => rfl
    | str s ok =>
      simp only [badPattern, Option.isNone_iff_eq_none] at hbad
      simp [goodScanEntry, hbad]
  exact ⟨hz, by rw [hz]; rfl⟩

theorem qos_mappings_malformed_yields_zero_witness :
    (∃ a ∈ [BlobAttr.str "1:2" true, BlobAttr.str "3;4" true],
      badPattern a = true) ∧
    (vlandev_qos_mappings_list_apply 8
      [BlobAttr.str "1:2" true, BlobAttr.str "3;4" true]).1 = 0 := by
  refine ⟨⟨BlobAttr.str "3;4" true, by simp, by decide⟩, ?_⟩
  exact (qos_mappings_malformed_yields_zero 8 _
    ⟨BlobAttr.str "3;4" true, by simp, by decide⟩).1

/-- C4: on a mapping list of length at most the capacity whose items are
all strings of the form `<unsigned-int>:<unsigned-int>`, the parser
returns exactly the length of the list, and the decoded pairs fill the
destination table in input order. -/
theorem qos_mappings_all_valid_in_order (len : Nat) (list : List BlobAttr)
    (hlen : list.length ≤ len)
    (hgood : ∀ a ∈ list, goodFormEntry a = true) :
    (vlandev_qos_mappings_list_apply len list).1 = list.length ∧
    (vlandev_qos_mappings_list_apply len list).2 = list.map entryPair := by
  have hg : ∀ a ∈ list, goodScanEntry a = true := by
    intro a hm
    have hga := hgood a hm
    cases a with
    | nonstr => simp [goodFormEntry] at hga
    | str s ok =>
      simp only [goodFormEntry, Bool.and_eq_true] at hga
      simp [goodScanEntry, hga.1, sscanf_of_isFromTo s hga.2]
  have hrun := qosApply_all_good len list 0 [] (by omega) hg
  unfold vlandev_qos_mappings_list_apply
  rw [hrun]
  simp

theorem qos_mappings_all_valid_in_order_witness :
    (vlandev_qos_mappings_list_apply 8
      [BlobAttr.str "1:2" true, BlobAttr.str "10:20" true]).1 = 2 ∧
    (vlandev_qos_mappings_list_apply 8
      [BlobAttr.str "1:2" true, BlobAttr.str "10:20" true]).2 =
      [(1, 2), (10, 20)] := by
  have h := qos_mappings_all_valid_in_order 8
    [BlobAttr.str "1:2" true, BlobAttr.str "10:20" true]
    (by decide) (by decide)
  refine ⟨h.1, ?_⟩
  rw [h.2]
  decide

/-- C5: a mapping list with more items than the destination capacity
yields count 0. -/
theorem qos_mappings_too_long_yields_zero (len : Nat) (list : List BlobAttr)
    (h : len < list.length) :
    (vlandev_qos_mappings_list_apply len list).1 = 0 :=
  qosApply_overflow len list 0 [] (Nat.zero_le len) (by omega)

theorem qos_mappings_too_long_yields_zero_witness :
    1 < [BlobAttr.str "1:2" true, BlobAttr.str "3:4" true].length ∧
    (vlandev_qos_mappings_list_apply 1
      [BlobAttr.str "1:2" true, BlobAttr.str "3:4" true]).1 = 0 :=
  ⟨by decide, qos_mappings_too_long_yields_zero 1 _ (by decide)⟩

/-- C1: `vlandev_set_up` is a three-phase commit with full rollback. If
the parent claim fails its error is returned unchanged and no other
action is taken; if link creation fails the claim is released before the
error is returned; if the bring-up call fails the link is destroyed and
the claim released before the error is returned. In each failure case,
starting from no resources, no resource acquired during the attempt is
still held afterwards. -/
theorem vlandev_set_up_rollback (env : SetUpEnv) :
    (env.device_claim_ret < 0 →
      vlandev_set_up env = (env.device_claim_ret, [.device_claim]) ∧
      runCalls env ⟨false, false⟩ (vlandev_set_up env).2 = ⟨false, false⟩) ∧
    (0 ≤ env.device_claim_ret → env.system_vlandev_add_ret < 0 →
      vlandev_set_up env = (env.system_vlandev_add_ret,
        [.device_claim, .system_vlandev_add, .device_release]) ∧
      runCalls env ⟨false, false⟩ (vlandev_set_up env).2 = ⟨false, false⟩) ∧
    (0 ≤ env.device_claim_ret → 0 ≤ env.system_vlandev_add_ret →
      env.set_state_ret ≠ 0 →
      vlandev_set_up env = (env.set_state_ret,
        [.device_claim, .system_vlandev_add, .set_state true,
         .system_vlandev_del, .device_release]) ∧
      runCalls env ⟨false, false⟩ (vlandev_set_up env).2 = ⟨false, false⟩) := by
  refine ⟨fun h1 => ?_, fun h1 h2 => ?_, fun h1 h2 h3 => ?_⟩
  · have he : vlandev_set_up env = (env.device_claim_ret, [.device_claim]) := by
      rw [vlandev_set_up, if_pos h1]
    exact ⟨he, by rw [he]; simp [runCalls, callEffect, if_pos h1]⟩
  · have he : vlandev_set_up env = (env.system_vlandev_add_ret,
        [.device_claim, .system_vlandev_add, .device_release]) := by
      rw [vlandev_set_up, if_neg (by omega), if_pos h2]
    exact ⟨he, by
      rw [he]
      simp [runCalls, callEffect, if_neg (by omega : ¬env.device_claim_ret < 0),
        if_pos h2]⟩
  · have he : vlandev_set_up env = (env.set_state_ret,
        [.device_claim, .system_vlandev_add, .set_state true,
         .system_vlandev_del, .device_release]) := by
      rw [vlandev_set_up, if_neg (by omega), if_neg (by omega), if_pos h3]
    exact ⟨he, by
      rw [he]
      simp [runCalls, callEffect]⟩

theorem vlandev_set_up_rollback_witness :
    (vlandev_set_up ⟨-1, 0, 0⟩ = (-1, [.device_claim]) ∧
      runCalls ⟨-1, 0, 0⟩ ⟨false, false⟩ (vlandev_set_up ⟨-1, 0, 0⟩).2 =
        ⟨false, false⟩) ∧
    (vlandev_set_up ⟨0, -2, 0⟩ = (-2,
        [.device_claim, .system_vlandev_add, .device_release]) ∧
      runCalls ⟨0, -2, 0⟩ ⟨false, false⟩ (vlandev_set_up ⟨0, -2, 0⟩).2 =
        ⟨false, false⟩) ∧
    (vlandev_set_up ⟨0, 0, 7⟩ = (7,
        [.device_claim, .system_vlandev_add, .set_state true,
         .system_vlandev_del, .device_release]) ∧
      runCalls ⟨0, 0, 7⟩ ⟨false, false⟩ (vlandev_set_up ⟨0, 0, 7⟩).2 =
        ⟨false, false⟩) :=
  ⟨(vlandev_set_up_rollback ⟨-1, 0, 0⟩).1 (by decide),
   (vlandev_set_up_rollback ⟨0, -2, 0⟩).2.1 (by decide) (by decide),
   (vlandev_set_up_rollback ⟨0, 0, 7⟩).2.2 (by decide) (by decide) (by decide)⟩

/-- C2: `vlandev_set_down` returns 0 for every result of the discarded
bring-down call, and its external calls are exactly one bring-down, one
link destruction and one claim release, unconditionally. -/
theorem vlandev_set_down_always_succeeds (set_state_down_ret : Int) :
    vlandev_set_down set_state_down_ret =
      (0, [.set_state false, .system_vlandev_del, .device_release]) ∧
    ((vlandev_set_down set_state_down_ret).2.count .system_vlandev_del = 1 ∧
     (vlandev_set_down set_state_down_ret).2.count .device_release = 1) := by
  refine ⟨rfl, by rfl, by rfl⟩

/-- A list failing the acceptance test yields parser count 0. -/
theorem qos_parse_not_ok_zero (cap : Nat) (l : List BlobAttr)
    (h : qosParseOk cap l = false) :
    (vlandev_qos_mappings_list_apply cap l).1 = 0 := by
  by_cases hl : l.length ≤ cap
  · have hall : l.all goodScanEntry = false := by
      cases hall : l.all goodScanEntry with
      | false => rfl
      | true => simp [qosParseOk, hl, hall] at h
    have hex : ∃ a ∈ l, goodScanEntry a = false := by
      by_contra hcon
      push_neg at hcon
      have : l.all goodScanEntry = true := by
        rw [List.all_eq_true]
        intro a hm
        cases hga : goodScanEntry a with
        | true => rfl
        | false => exact absurd hga (hcon a hm)
      rw [this] at hall
      exact Bool.true_eq_false_eq_False hall
    exact qosApply_has_bad cap l 0 [] hex
  · exact qos_mappings_too_long_yields_zero cap l (by omega)

/-- C9: after `vlandev_apply_settings`, the protocol is 802.1Q exactly
when the device was created by the 8021q variant; the tag is 1 whenever
the `vid` attribute is absent; and each mapping-table length is 0
whenever its list attribute is absent or the list fails the parse. -/
theorem vlandev_apply_settings_invariants (cap : Nat) (is8021q : Bool)
    (tb : VlanTb) :
    ((vlandev_apply_settings cap is8021q tb).proto =
        VlanProto.VLAN_PROTO_8021Q ↔ is8021q = true) ∧
    (tb.vid = none → (vlandev_apply_settings cap is8021q tb).vid = 1) ∧
    ((tb.ingress_qos_mapping = none ∨
        ∃ l, tb.ingress_qos_mapping = some l ∧ qosParseOk cap l = false) →
      (vlandev_apply_settings cap is8021q tb).ingress_qos_mappings_len = 0) ∧
    ((tb.egress_qos_mapping = none ∨
        ∃ l, tb.egress_qos_mapping = some l ∧ qosParseOk cap l = false) →
      (vlandev_apply_settings cap is8021q tb).egress_qos_mappings_len = 0) := by
  obtain ⟨fi, fv, fin, feg⟩ := tb
  refine ⟨?_, ?_, ?_, ?_⟩
  · cases is8021q <;> cases fv <;> cases fin <;> cases feg <;>
      simp [vlandev_apply_settings]
  · intro h
    simp only at h
    subst h
    cases fin <;> cases feg <;> simp [vlandev_apply_settings]
  · rintro (h | ⟨l, hl, hbad⟩)
    · simp only at h
      subst h
      cases fv <;> cases feg <;> simp [vlandev_apply_settings]
    · simp only at hl
      subst hl
      cases fv <;> cases feg <;>
        simp [vlandev_apply_settings, qos_parse_not_ok_zero cap l hbad]
  · rintro (h | ⟨l, hl, hbad⟩)
    · simp only at h
      subst h
      cases fv <;> cases fin <;> simp [vlandev_apply_settings]
    · simp only at hl
      subst hl
      cases fv <;> cases fin <;>
        simp [vlandev_apply_settings, qos_parse_not_ok_zero cap l hbad]

theorem vlandev_apply_settings_invariants_witness :
    ((vlandev_apply_settings 4 true
        ⟨none, none, some [BlobAttr.nonstr], none⟩).proto =
      VlanProto.VLAN_PROTO_8021Q ↔ true = true) ∧
    (vlandev_apply_settings 4 true
        ⟨none, none, some [BlobAttr.nonstr], none⟩).vid = 1 ∧
    (vlandev_apply_settings 4 true
        ⟨none, none, some [BlobAttr.nonstr], none⟩).ingress_qos_mappings_len
      = 0 ∧
    (vlandev_apply_settings 4 true
        ⟨none, none, some [BlobAttr.nonstr], none⟩).egress_qos_mappings_len
      = 0 := by
  have h := vlandev_apply_settings_invariants 4 true
    ⟨none, none, some [BlobAttr.nonstr], none⟩
  exact ⟨h.1, h.2.1 rfl,
    h.2.2.1 (Or.inr ⟨[BlobAttr.nonstr], rfl, by decide⟩),
    h.2.2.2 (Or.inl rfl)⟩

/-- C10: a present `vid` attribute is stored through the `(uint16_t)`
cast, so the resulting tag is the configured value modulo `2 ^ 16`;
values of 65536 and above wrap silently. -/
theorem vlandev_vid_truncated_to_u16 (cap : Nat) (is8021q : Bool)
    (tb : VlanTb) (v : Nat) (h : tb.vid = some v) :
    (vlandev_apply_settings cap is8021q tb).vid = v % 2 ^ 16 := by
  obtain ⟨fi, fv, fin, feg⟩ := tb
  simp only at h
  subst h
  have hm : v % 4294967296 % 65536 = v % 65536 :=
    Nat.mod_mod_of_dvd v (by norm_num)
  cases fin <;> cases feg <;>
    simp [vlandev_apply_settings, u16_cast, blobmsg_get_u32, hm]

theorem vlandev_vid_truncated_to_u16_witness :
    (vlandev_apply_settings 4 true ⟨none, some 65541, none, none⟩).vid = 5 := by
  have h := vlandev_vid_truncated_to_u16 4 true
    ⟨none, some 65541, none, none⟩ 65541 rfl
  rw [h]
  norm_num

/-- C6: a reload on a device with no persisted configuration classifies
as `DEV_CONFIG_APPLIED`, for every new configuration, capacity and diff
oracle. -/
theorem vlandev_reload_first_config_applied (oracle : DiffOracle) (cap : Nat)
    (st : VlandevDev) (attr : RawConfig) (h : st.config_data = none) :
    (vlandev_reload oracle cap st attr).1 =
      DevChangeType.DEV_CONFIG_APPLIED := by
  simp [vlandev_reload, h]

theorem vlandev_reload_first_config_applied_witness :
    (vlandev_reload ⟨fun a b => decide (a ≠ b), fun a b => decide (a ≠ b)⟩ 4
      ⟨true, none, none, sampleCfg, none, 0⟩
      ⟨⟨0⟩, emptyVlanTb⟩).1 = DevChangeType.DEV_CONFIG_APPLIED :=
  vlandev_reload_first_config_applied
    ⟨fun a b => decide (a ≠ b), fun a b => decide (a ≠ b)⟩ 4
    ⟨true, none, none, sampleCfg, none, 0⟩ ⟨⟨0⟩, emptyVlanTb⟩ rfl

/-- C7: a reload on a device with a persisted configuration classifies
as `DEV_CONFIG_RESTART` exactly when the generic-schema diff or the
VLAN-schema diff reports a difference; when neither does — in
particular, for a reflexivity-respecting diff and byte-identical
configuration — it classifies as `DEV_CONFIG_APPLIED`. -/
theorem vlandev_reload_diff_classification (oracle : DiffOracle) (cap : Nat)
    (st : VlandevDev) (attr old : RawConfig) (h : st.config_data = some old) :
    ((vlandev_reload oracle cap st attr).1 =
        DevChangeType.DEV_CONFIG_RESTART ↔
      (oracle.diff_dev attr.dev old.dev = true ∨
       oracle.diff_mv attr.mv old.mv = true)) ∧
    ((∀ x, oracle.diff_dev x x = false) → (∀ y, oracle.diff_mv y y = false) →
      attr = old →
      (vlandev_reload oracle cap st attr).1 =
        DevChangeType.DEV_CONFIG_APPLIED) := by
  constructor
  · cases hd : oracle.diff_dev attr.dev old.dev <;>
      cases hm : oracle.diff_mv attr.mv old.mv <;>
      simp [vlandev_reload, h, hd, hm]
  · intro hrd hrm heq
    subst heq
    simp [vlandev_reload, h, hrd attr.dev, hrm attr.mv]

theorem vlandev_reload_diff_classification_witness :
    (vlandev_reload ⟨fun a b => decide (a ≠ b), fun a b => decide (a ≠ b)⟩ 4
      ⟨true, some ⟨⟨0⟩, emptyVlanTb⟩, none, sampleCfg, none, 0⟩
      ⟨⟨1⟩, emptyVlanTb⟩).1 = DevChangeType.DEV_CONFIG_RESTART ∧
    (vlandev_reload ⟨fun a b => decide (a ≠ b), fun a b => decide (a ≠ b)⟩ 4
      ⟨true, some ⟨⟨0⟩, emptyVlanTb⟩, none, sampleCfg, none, 0⟩
      ⟨⟨0⟩, emptyVlanTb⟩).1 = DevChangeType.DEV_CONFIG_APPLIED := by
  constructor
  · exact (vlandev_reload_diff_classification
      ⟨fun a b => decide (a ≠ b), fun a b => decide (a ≠ b)⟩ 4
      ⟨true, some ⟨⟨0⟩, emptyVlanTb⟩, none, sampleCfg, none, 0⟩
      ⟨⟨1⟩, emptyVlanTb⟩ ⟨⟨0⟩, emptyVlanTb⟩ rfl).1.mpr
      (Or.inl (by decide))
  · exact (vlandev_reload_diff_classification
      ⟨fun a b => decide (a ≠ b), fun a b => decide (a ≠ b)⟩ 4
      ⟨true, some ⟨⟨0⟩, emptyVlanTb⟩, none, sampleCfg, none, 0⟩
      ⟨⟨0⟩, emptyVlanTb⟩ ⟨⟨0⟩, emptyVlanTb⟩ rfl).2
      (by intro x; simp) (by intro y; simp) rfl

/-- C8: every reload — with or without a persisted configuration, and
whatever the classification — ends with the persisted raw configuration
replaced by the new blob (the previous copy is freed under value
semantics; nothing is merged or left unchanged). -/
theorem vlandev_reload_replaces_persisted (oracle : DiffOracle) (cap : Nat)
    (st : VlandevDev) (attr : RawConfig) :
    ((vlandev_reload oracle cap st attr).2).config_data = some attr := by
  cases h : st.config_data <;> simp [vlandev_reload, h]
